import Mathlib

/-!
Verification development for the query orchestration engine of the
company-brain knowledge-base service.  The definitions below are a shallow
embedding of the TypeScript source (route handler, search library and
security helpers); numbers that the source handles as JS floating point
values are idealised as rationals, fallible collaborator calls are modelled
with Except, and the JS regular expressions used by the source are modelled
by explicit character-list scanners with the same match semantics.
-/

/-- JS regex digit class [0-9]. -/
def isDigitCh (c : Char) : Bool := 48 ≤ c.toNat && c.toNat ≤ 57

/-- JS regex word-character class [A-Za-z0-9_]. -/
def isWordCh (c : Char) : Bool :=
  isDigitCh c || (65 ≤ c.toNat && c.toNat ≤ 90) || (97 ≤ c.toNat && c.toNat ≤ 122) || c == '_'

/-- JS whitespace for regex \s and trim, restricted to the ASCII characters
the modelled inputs can contain: space, tab, line feed, carriage return,
vertical tab and form feed. -/
def isSpaceCh (c : Char) : Bool :=
  c == ' ' || c == '\t' || c == '\n' || c == '\r' || c.toNat == 11 || c.toNat == 12

/-- ASCII model of JS String.prototype.toLowerCase, character by character:
uppercase ASCII letters are shifted down into lowercase, everything else is
unchanged. -/
def lowerChar (c : Char) : Char :=
  if 65 ≤ c.toNat ∧ c.toNat ≤ 90 then Char.ofNat (c.toNat + 32) else c

/-- ASCII model of JS toLowerCase on whole strings. -/
def lowerStr (s : String) : String := String.mk (s.data.map lowerChar)

/-- Case-insensitive check that pat occurs at the very start of the list. -/
def startsWithCI : List Char → List Char → Bool
  | [], _ => true
  | _ :: _, [] => false
  | p :: ps, c :: cs => (lowerChar p == lowerChar c) && startsWithCI ps cs

/-- Case-insensitive substring test, as used for the i-flagged literal regex
tests in the source. -/
def containsCI (pat : List Char) : List Char → Bool
  | [] => startsWithCI pat []
  | c :: cs => startsWithCI pat (c :: cs) || containsCI pat cs

/-- Case-insensitive substring test on strings. -/
def testCI (pat s : String) : Bool := containsCI pat.data s.data

/-- JS String.prototype.trim (ASCII whitespace model). -/
def jsTrim (l : List Char) : List Char :=
  ((l.dropWhile isSpaceCh).reverse.dropWhile isSpaceCh).reverse

/-- JS String.prototype.trim on strings. -/
def jsTrimStr (s : String) : String := String.mk (jsTrim s.data)

/-- JS split on the regex of an optional carriage return followed by a line
feed, accumulator-based. -/
def splitLinesAux (acc : List Char) : List Char → List String
  | [] => [String.mk acc.reverse]
  | '\r' :: '\n' :: rest => String.mk acc.reverse :: splitLinesAux [] rest
  | '\n' :: rest => String.mk acc.reverse :: splitLinesAux [] rest
  | c :: rest => splitLinesAux (c :: acc) rest

/-- JS text.split of the line separator regex. -/
def splitLines (s : String) : List String := splitLinesAux [] s.data

/-- JS row.split of a comma, accumulator-based. -/
def splitCommaAux (acc : List Char) : List Char → List String
  | [] => [String.mk acc.reverse]
  | ',' :: rest => String.mk acc.reverse :: splitCommaAux [] rest
  | c :: rest => splitCommaAux (c :: acc) rest

/-- JS row.split of a comma. -/
def splitComma (s : String) : List String := splitCommaAux [] s.data

/-- Single pass of a global case-insensitive literal replacement with the
empty string, as JS String.replace with a gi literal regex: scanning left to
right, each non-overlapping occurrence is dropped and scanning resumes after
it.  The fuel argument only bounds the recursion; every step consumes at
least one character, so any fuel of at least the list length is exact. -/
def stripAllCIAux (pat : List Char) : Nat → List Char → List Char
  | _, [] => []
  | 0, l => l
  | fuel + 1, c :: cs =>
    if startsWithCI pat (c :: cs) then stripAllCIAux pat fuel (List.drop (pat.length - 1) cs)
    else c :: stripAllCIAux pat fuel cs

/-- Global case-insensitive removal of a literal pattern. -/
def stripAllCI (pat l : List Char) : List Char := stripAllCIAux pat l.length l

/-- One attempt of the regex for an inline event handler (letters o n, one or
more word characters, an equals sign) at the head of the list; returns the
remainder after the match when it matches.  The greedy word-character run
needs no backtracking because the equals sign is not a word character. -/
def matchOnAt : List Char → Option (List Char)
  | c1 :: c2 :: rest =>
    if (lowerChar c1 == 'o') && (lowerChar c2 == 'n') then
      let w := rest.takeWhile isWordCh
      let r := rest.drop w.length
      if (!w.isEmpty) && (r.head? == some '=') then some r.tail else none
    else none
  | _ => none

/-- Global removal of inline event handler matches, one pass left to right.
Fuel bounds the recursion; any fuel of at least the list length is exact. -/
def stripOnHandlersAux : Nat → List Char → List Char
  | _, [] => []
  | 0, l => l
  | fuel + 1, c :: cs =>
    match matchOnAt (c :: cs) with
    | some rest => stripOnHandlersAux fuel rest
    | none => c :: stripOnHandlersAux fuel cs

/-- Global removal of inline event handler matches. -/
def stripOnHandlers (l : List Char) : List Char := stripOnHandlersAux l.length l

/-- Model of sanitizeInput from the security library: remove angle brackets,
remove the javascript protocol prefix case-insensitively, remove inline event
handlers, then trim. -/
def sanitizeInput (input : String) : String :=
  String.mk (jsTrim (stripOnHandlers (stripAllCI "javascript:".data
    (input.data.filter (fun c => c != '<' && c != '>')))))

/-- Decimal value of a digit run. -/
def digitsToNat (l : List Char) : Nat := l.foldl (fun a c => a * 10 + (c.toNat - 48)) 0

/-- JS parseFloat on strings already stripped to digits, dots and minus signs:
an optional leading minus sign, then an integer part and an optional
fractional part, longest valid prefix; none (NaN) when no digit was read.
The value is assembled with mkRat over a power-of-ten denominator. -/
def parseFloatQ (s : List Char) : Option ℚ :=
  let signed := match s with
    | '-' :: r => (true, r)
    | r => (false, r)
  let ip := signed.2.takeWhile isDigitCh
  let rest2 := signed.2.drop ip.length
  let fp := match rest2 with
    | '.' :: r => r.takeWhile isDigitCh
    | _ => []
  if ip.isEmpty && fp.isEmpty then none
  else
    let den : Nat := 10 ^ fp.length
    let numer : Int := (digitsToNat ip * den + digitsToNat fp : Nat)
    some (mkRat (if signed.1 then -numer else numer) den)

/-- Rational addition computed through mkRat, so that the kernel can evaluate
it on concrete inputs; proved equal to ordinary rational addition below. -/
def addQ (a b : ℚ) : ℚ := mkRat (a.num * b.den + b.num * a.den) (a.den * b.den)

theorem addQ_eq_add (a b : ℚ) : addQ a b = a + b := by
  unfold addQ
  rw [Rat.mkRat_eq_div]
  push_cast
  conv_rhs => rw [← Rat.num_div_den a, ← Rat.num_div_den b]
  rw [div_add_div _ _ (Nat.cast_ne_zero.mpr a.den_nz) (Nat.cast_ne_zero.mpr b.den_nz)]
  ring_nf

/-- Model of the replacement that keeps only digits, dots and minus signs. -/
def cleanNum (l : List Char) : List Char :=
  l.filter (fun c => isDigitCh c || c == '.' || c == '-')

/-- First characters of a year match: the alternation of 19 and 20. -/
def yearStartPair (c1 c2 : Char) : Bool := (c1 == '1' && c2 == '9') || (c1 == '2' && c2 == '0')

/-- Leftmost match of the year regex without word boundaries (the alternation
of 19 and 20 followed by two digits), returning the four matched characters.
The two spellings used by the source, 19-first and 20-first, have identical
match semantics because the alternatives exclude each other at any given
position. -/
def firstYearMatch : List Char → Option String
  | [] => none
  | c1 :: rest =>
    match rest with
    | c2 :: c3 :: c4 :: _ =>
      if yearStartPair c1 c2 && isDigitCh c3 && isDigitCh c4 then
        some (String.mk [c1, c2, c3, c4])
      else firstYearMatch rest
    | _ => none

/-- Global scan of the word-bounded year regex: all non-overlapping matches of
a word boundary, the alternation of 19 and 20, two digits and a word boundary,
left to right.  prev is the character just before the current position.  Fuel
bounds the recursion; any fuel of at least the list length is exact. -/
def yearScanAux : Nat → Option Char → List Char → List String
  | _, _, [] => []
  | 0, _, _ => []
  | fuel + 1, prev, c1 :: rest =>
    match rest with
    | c2 :: c3 :: c4 :: rest2 =>
      if prev.all (fun p => !isWordCh p) && yearStartPair c1 c2 && isDigitCh c3 && isDigitCh c4
          && rest2.head?.all (fun n => !isWordCh n) then
        String.mk [c1, c2, c3, c4] :: yearScanAux fuel (some c4) rest2
      else yearScanAux fuel (some c1) rest
    | _ => []

/-- All word-bounded year matches of a character list. -/
def yearScanB (l : List Char) : List String := yearScanAux l.length none l

/-- Model of wrapping a JS array in a Set and back into an array: first
occurrences in order. -/
def dedupeStrAux (seen : List String) : List String → List String
  | [] => []
  | s :: rest =>
    if seen.contains s then dedupeStrAux seen rest
    else s :: dedupeStrAux (s :: seen) rest

/-- Array.from of new Set of a string array. -/
def dedupeStr (l : List String) : List String := dedupeStrAux [] l

/-- ASCII model of JS String.prototype.toUpperCase, character by character:
lowercase ASCII letters are shifted up into uppercase, everything else is
unchanged. -/
def upperChar (c : Char) : Char :=
  if 97 ≤ c.toNat ∧ c.toNat ≤ 122 then Char.ofNat (c.toNat - 32) else c

/-- ASCII model of JS toUpperCase on whole strings. -/
def upperStr (s : String) : String := String.mk (s.data.map upperChar)

/-- One position of the pattern for the words net and income separated by any
whitespace, case insensitive. -/
def matchNetIncomeAt (l : List Char) : Bool :=
  startsWithCI "net".data l && startsWithCI "income".data ((l.drop 3).dropWhile isSpaceCh)

/-- Substring test for the net-income pattern. -/
def hasNetIncomeScan : List Char → Bool
  | [] => false
  | c :: cs => matchNetIncomeAt (c :: cs) || hasNetIncomeScan cs

/-- One attempt of the metric-keyword alternation (revenue, net income with
optional internal whitespace, assets, liabilities, equity, ebitda; case
insensitive) at the head of the list; returns the matched text and the
remainder.  Alternatives are tried in the order of the source pattern; at any
one position at most one alternative can match, since their spellings exclude
each other. -/
def matchMetricKeyword (l : List Char) : Option (List Char × List Char) :=
  if startsWithCI "revenue".data l then some (l.take 7, l.drop 7)
  else if matchNetIncomeAt l then
    let len := 3 + ((l.drop 3).takeWhile isSpaceCh).length + 6
    some (l.take len, l.drop len)
  else if startsWithCI "assets".data l then some (l.take 6, l.drop 6)
  else if startsWithCI "liabilities".data l then some (l.take 11, l.drop 11)
  else if startsWithCI "equity".data l then some (l.take 6, l.drop 6)
  else if startsWithCI "ebitda".data l then some (l.take 6, l.drop 6)
  else none

/-- Substring test of the metric-keyword alternation, as used by the i-flagged
test calls of the source. -/
def metricKeywordScan : List Char → Bool
  | [] => false
  | c :: cs => (matchMetricKeyword (c :: cs)).isSome || metricKeywordScan cs

/-! ## Data model -/

/-- Subset of the stored document metadata that the query path reads. -/
structure DocMetadata where
  fileName : String := ""
  category : String := ""
  department : String := ""
  summary : String := ""
deriving DecidableEq

/-- A document hit as returned by the index collaborator.  Absent JS fields
are modelled by empty strings, which the source treats as falsy; esId stands
for the underscore-id field of a raw search hit and score for its
underscore-score. -/
structure Doc where
  id : String := ""
  esId : String := ""
  title : String := ""
  content : String := ""
  type : String := ""
  createdAt : String := ""
  score : ℚ := 0
  metadata : DocMetadata := {}
deriving DecidableEq

/-- The source shape returned to the client. -/
structure DocumentSource where
  id : String
  title : String
  type : String
  relevanceScore : ℚ
  excerpt : String
  metadata : DocMetadata
deriving DecidableEq

/-- A chat history message. -/
structure ChatMessage where
  id : String := ""
  content : String := ""
  isUser : Bool := false
  timestamp : String := ""
deriving DecidableEq

/-- One clause of the search filters built from the request. -/
inductive FilterClause where
  | termsType (types : List String)
  | termsCategory (categories : List String)
  | termsDepartment (departments : List String)
  | termsTags (tags : List String)
  | rangeCreatedAt (gte lte : String)
deriving DecidableEq

/-- The optional filters of a query request. -/
structure QueryFilters where
  documentTypes : List String := []
  categories : List String := []
  departments : List String := []
  tags : List String := []
  dateRange : Option (String × String) := none
deriving DecidableEq

/-- A parsed query request body with its destructuring defaults. -/
structure QueryRequest where
  query : String
  filters : Option QueryFilters := none
  chatHistory : List ChatMessage := []
  useVectorSearch : Bool := true
  maxResults : Nat := 10
deriving DecidableEq

/-- The query plan produced by the planner. -/
structure QueryPlan where
  metrics : List String
  years : List String
  entities : List String
  searchQueries : List String
deriving DecidableEq

/-- A structured numeric fact mined from document content. -/
structure MetricFact where
  metric : String
  year : String
  value : ℚ
  source : String
deriving DecidableEq

/-- Counts of outgoing collaborator calls made while handling a request. -/
structure CallTrace where
  embedCalls : Nat := 0
  hybridCalls : Nat := 0
  lexicalCalls : Nat := 0
  modelCalls : Nat := 0
deriving DecidableEq

/-- Pointwise sum of call traces. -/
def CallTrace.add (a b : CallTrace) : CallTrace :=
  ⟨a.embedCalls + b.embedCalls, a.hybridCalls + b.hybridCalls,
   a.lexicalCalls + b.lexicalCalls, a.modelCalls + b.modelCalls⟩

/-- The index and embedding collaborators, modelled as fixed pure functions.
fetchOk tells whether the embedding API call succeeds; hybrid and lexical
take the query text (hybrid also the embedding vector), the optional filters
and the requested size, and either return hits or throw. -/
structure SearchEnv where
  fetchOk : Bool
  hybrid : String → List ℚ → Option (List FilterClause) → Nat → Except Unit (List Doc)
  lexical : String → Option (List FilterClause) → Nat → Except Unit (List Doc)

/-- The modelled HTTP response of the query endpoint, restricted to the
fields the verified claims read (query timing and the expanded-query echo of
the real response are not modelled). -/
inductive HandlerResponse where
  | errorResp (message : String) (status : Nat)
  | successResp (answer : String) (sources : List DocumentSource) (totalHits : Nat)
deriving DecidableEq

/-! ## Query planner -/

/-- The metric keyword pushes of planInformationNeeds, in source order. -/
def planMetricHits (userQuery : String) : List String :=
  (if testCI "revenue" userQuery || testCI "sales" userQuery then ["revenue"] else []) ++
  (if hasNetIncomeScan userQuery.data || testCI "profit" userQuery then ["net income"] else []) ++
  (if testCI "ebitda" userQuery then ["ebitda"] else []) ++
  (if testCI "assets" userQuery then ["assets"] else []) ++
  (if testCI "liabilities" userQuery then ["liabilities"] else []) ++
  (if testCI "equity" userQuery then ["equity"] else [])

/-- Step 1 of the pipeline: derive metrics, years and candidate search query
strings from the raw question. -/
def planInformationNeeds (userQuery : String) : QueryPlan :=
  let q := lowerStr userQuery
  let years := dedupeStr (yearScanB q.data)
  let metricHits := planMetricHits userQuery
  let metrics := if metricHits.isEmpty then ["revenue"] else metricHits
  let base := jsTrimStr userQuery
  let derived :=
    if years.length > 0 then
      (metrics.map (fun m =>
        (m ++ " " ++ String.intercalate " " years) :: years.map (fun y => m ++ " " ++ y))).flatten
    else metrics
  { metrics := dedupeStr metrics, years := years, entities := [],
    searchQueries := dedupeStr (base :: derived) }

/-! ## Multi search and merge -/

/-- Model of generateEmbedding: the embedding API call is attempted and on
any failure the catch substitutes an all-zero 768-vector; on success the
placeholder implementation of the source draws a fresh random 768-vector,
supplied here by the random source of the run. -/
def generateEmbedding (env : SearchEnv) (rnd : List ℚ) : List ℚ :=
  if env.fetchOk then rnd else List.replicate 768 0

/-- The body of one iteration of the multi-search loop: on the vector path,
hybrid search with a fresh embedding, falling back to lexical search only
when hybrid returned successfully with zero hits; any exception is caught
and the sub-query contributes nothing.  Returns the hits together with the
collaborator calls made. -/
def runSubQuery (env : SearchEnv) (useVectorSearch : Bool)
    (filters : Option (List FilterClause)) (topKPerQuery : Nat) (rnd : List ℚ)
    (q : String) : List Doc × CallTrace :=
  if useVectorSearch then
    let embedding := generateEmbedding env rnd
    match env.hybrid q embedding filters topKPerQuery with
    | .error _ => ([], ⟨1, 1, 0, 0⟩)
    | .ok results =>
      if results.isEmpty then
        match env.lexical q filters topKPerQuery with
        | .error _ => ([], ⟨1, 1, 1, 0⟩)
        | .ok results2 => (results2, ⟨1, 1, 1, 0⟩)
      else (results, ⟨1, 1, 0, 0⟩)
  else
    match env.lexical q filters topKPerQuery with
    | .error _ => ([], ⟨0, 0, 1, 0⟩)
    | .ok results => (results, ⟨0, 0, 1, 0⟩)

/-- The dedupe identity of a hit: its id, else its raw index id, else the
title and creation time. -/
def dedupeKey (d : Doc) : String :=
  if d.id != "" then d.id
  else if d.esId != "" then d.esId
  else d.title ++ ":" ++ d.createdAt

/-- The merge loop of multiSearch: first occurrence of each dedupe identity
is kept, in input order; seen is the set of identities already kept. -/
def dedupeDocsAux (seen : List String) : List Doc → List Doc
  | [] => []
  | d :: ds =>
    let key := dedupeKey d
    if seen.contains key then dedupeDocsAux seen ds
    else d :: dedupeDocsAux (key :: seen) ds

/-- Merge of the flat fan-out hit list: dedupe by identity, keeping first
occurrences in order. -/
def mergeDedupe (flat : List Doc) : List Doc := dedupeDocsAux [] flat

/-- Step 2 of the pipeline: execute up to six planned queries in order,
collect their hits, dedupe by identity and bound the result.  rng supplies
the random embedding vector drawn for each executed sub-query position. -/
def multiSearch (env : SearchEnv) (rng : Nat → List ℚ) (userQuery : String)
    (searchQueries : List String) (filters : Option (List FilterClause))
    (useVectorSearch : Bool) (maxResults : Nat) : List Doc × CallTrace :=
  let topKPerQuery := max 3 (maxResults / 2)
  let runs := ((searchQueries.take 6).enum).map
    (fun p => runSubQuery env useVectorSearch filters topKPerQuery (rng p.1) p.2)
  let flat := (runs.map Prod.fst).flatten
  let trace := (runs.map Prod.snd).foldl CallTrace.add {}
  ((mergeDedupe flat).take maxResults, trace)

/-! ## Fact extraction -/

/-- Insert-or-add update of a string-keyed numeric record, preserving the
insertion order of keys, as JS object assignment of old-or-zero plus value. -/
def addEntry : List (String × ℚ) → String → ℚ → List (String × ℚ)
  | [], k, v => [(k, v)]
  | (k', v') :: rest, k, v =>
    if k' = k then (k', addQ v' v) :: rest else (k', v') :: addEntry rest k v

/-- The compact revenue-by-year extractor over CSV-like document content. -/
def extractRevenueByYearFromCsvContent (content : String) : List (String × ℚ) :=
  let lines := (splitLines content).filter (fun l => l != "")
  match List.findIdx? (fun l => l.data.contains ',' && testCI "revenue" l) lines with
  | none => []
  | some headerIdx =>
    let headers := (splitComma (lines.getD headerIdx "")).map jsTrimStr
    let monthIdx := List.findIdx? (fun h => testCI "month" h) headers
    match List.findIdx? (fun h => testCI "revenue" h) headers with
    | none => []
    | some revenueIdx =>
      (lines.drop (headerIdx + 1)).foldl (fun revenueByYear row =>
        if !(row.data.contains ',') then revenueByYear
        else
          let cols := splitComma row
          let revenueRaw := jsTrimStr (cols.getD revenueIdx "")
          match parseFloatQ (cleanNum revenueRaw.data) with
          | none => revenueByYear
          | some revenue =>
            match monthIdx with
            | some mi =>
              match firstYearMatch (cols.getD mi "").data with
              | some year => addEntry revenueByYear year revenue
              | none => revenueByYear
            | none => revenueByYear) []

/-- The per-request accumulation of compact revenue facts inside the answer
generator: every hit of tabular type whose content mentions revenue
contributes its extracted year-to-revenue entries, summed per year. -/
def financialsFor (searchResults : List Doc) : List (String × ℚ) :=
  searchResults.foldl (fun financials doc =>
    if doc.type == "csv" && testCI "revenue" doc.content then
      (extractRevenueByYearFromCsvContent doc.content).foldl
        (fun fin yv => addEntry fin yv.1 yv.2) financials
    else financials) []

/-- Insert-or-overwrite update of a string-keyed index record, preserving the
insertion order of keys, as JS object assignment. -/
def insertOver : List (String × Nat) → String → Nat → List (String × Nat)
  | [], k, v => [(k, v)]
  | (k', v') :: rest, k, v =>
    if k' = k then (k', v) :: rest else (k', v') :: insertOver rest k v

/-- A tabular header line: contains a comma and matches the metric-keyword
alternation. -/
def isMetricHeaderLine (l : String) : Bool := l.data.contains ',' && metricKeywordScan l.data

/-- The tabular branch of the general fact extractor: header tokens are
mapped to their column index (lowercased, later duplicates overwriting),
a period column is located by name, and every later comma-containing row
contributes one fact per metric-matching header whose cell parses. -/
def csvFacts (src : String) (lines : List String) (headerIdx : Nat) : List MetricFact :=
  let headers := (splitComma (lines.getD headerIdx "")).map jsTrimStr
  let metricIdxMap := headers.enum.foldl (fun m p => insertOver m (lowerStr p.2) p.1) []
  let monthIdx := List.findIdx?
    (fun h => testCI "month" h || testCI "date" h || testCI "period" h) headers
  let wanted := (metricIdxMap.map Prod.fst).filter (fun k => metricKeywordScan k.data)
  (lines.drop (headerIdx + 1)).foldl (fun facts row =>
    if !(row.data.contains ',') then facts
    else
      let cols := splitComma row
      let monthCell := match monthIdx with
        | some mi => cols.getD mi ""
        | none => ""
      match firstYearMatch monthCell.data with
      | none => facts
      | some year =>
        wanted.foldl (fun fs mk =>
          let idx := (metricIdxMap.lookup mk).getD 0
          let raw := jsTrimStr (cols.getD idx "")
          match parseFloatQ (cleanNum raw.data) with
          | none => fs
          | some val => fs ++ [⟨mk, year, val, src⟩]) facts) []

/-- The optional-currency, whitespace, number tail of the free-text fact
regex: an optional currency symbol, any whitespace, then a greedy non-empty
run of digits, commas and dots.  Returns the text of the third capture group
and the remainder after the match.  The optional and starred parts need no
backtracking because their character sets do not overlap the number run. -/
def fghMatch (tail : List Char) : Option (List Char × List Char) :=
  let t1 := match tail with
    | c :: r => if c == '$' || c == '€' || c == '£' then r else c :: r
    | [] => []
  let t2 := t1.dropWhile isSpaceCh
  let h := t2.takeWhile (fun c => isDigitCh c || c == ',' || c == '.')
  if h.isEmpty then none
  else some (tail.take (tail.length - (t2.drop h.length).length), t2.drop h.length)

/-- Backtracking of the greedy non-digit run before the number tail: the
longest run is tried first, shrinking one character at a time, exactly as the
regex engine backtracks a greedy class. -/
def efghDown (rest2 : List Char) : Nat → Option (List Char × List Char)
  | 0 => fghMatch rest2
  | k + 1 =>
    match fghMatch (rest2.drop (k + 1)) with
    | some r => some r
    | none => efghDown rest2 k

/-- One attempt of the free-text fact regex at the head of the list: a metric
keyword, a run of non-digits, the alternation of 19 and 20 (which alone forms
the year capture group of the source pattern), two more digits, another
non-digit run and the number tail.  The first non-digit run needs no
backtracking because the year alternatives begin with digits.  Returns the
lowercased keyword text, the two-character year group, the number group text
and the remainder after the whole match. -/
def freeTextMatchAt (l : List Char) : Option (String × String × List Char × List Char) :=
  match matchMetricKeyword l with
  | none => none
  | some (kw, rest) =>
    let b := rest.takeWhile (fun c => !isDigitCh c)
    match rest.drop b.length with
    | d1 :: d2 :: d3 :: d4 :: rest2 =>
      if yearStartPair d1 d2 && isDigitCh d3 && isDigitCh d4 then
        match efghDown rest2 (rest2.takeWhile (fun c => !isDigitCh c)).length with
        | some (g3, rem) => some (String.mk (kw.map lowerChar), String.mk [d1, d2], g3, rem)
        | none => none
      else none
    | _ => none

/-- The free-text heuristic of the general fact extractor: the global exec
loop of the fact regex, resuming after each match, emitting one fact per
match whose number group parses.  Fuel bounds the recursion; every step
consumes at least one character, so any fuel of at least the list length is
exact. -/
def freeTextScanAux (src : String) : Nat → List Char → List MetricFact
  | _, [] => []
  | 0, _ => []
  | fuel + 1, c :: cs =>
    match freeTextMatchAt (c :: cs) with
    | some (metric, yearGroup, g3, rem) =>
      let rest := freeTextScanAux src fuel rem
      match parseFloatQ (cleanNum g3) with
      | some num => ⟨metric, yearGroup, num, src⟩ :: rest
      | none => rest
    | none => freeTextScanAux src fuel cs

/-- The free-text heuristic over a whole content string. -/
def freeTextFacts (src : String) (text : String) : List MetricFact :=
  freeTextScanAux src text.data.length text.data

/-- The source label of a document for extracted facts. -/
def sourceName (doc : Doc) : String :=
  if doc.title != "" then doc.title
  else if doc.metadata.fileName != "" then doc.metadata.fileName
  else "document"

/-- The per-document body of the general fact extractor loop: when some line
is a tabular header the tabular heuristic alone runs (the source continues to
the next document afterwards); otherwise the free-text heuristic runs. -/
def docFacts (doc : Doc) : List MetricFact :=
  let src := sourceName doc
  let text := doc.content
  let lines := splitLines text
  match List.findIdx? isMetricHeaderLine lines with
  | some headerIdx => csvFacts src lines headerIdx
  | none => freeTextFacts src text

/-- Step 3 of the pipeline: generic metric-and-year facts over all hits. -/
def extractMetricYearFacts (docs : List Doc) : List MetricFact :=
  docs.foldl (fun facts doc => facts ++ docFacts doc) []

/-! ## Filters, sources, answer generation, handler -/

/-- The search filter clauses built from the optional request filters. -/
def buildSearchFilters (filters : Option QueryFilters) : List FilterClause :=
  match filters with
  | none => []
  | some f =>
    (if !f.documentTypes.isEmpty then [FilterClause.termsType f.documentTypes] else []) ++
    (if !f.categories.isEmpty then [FilterClause.termsCategory f.categories] else []) ++
    (if !f.departments.isEmpty then [FilterClause.termsDepartment f.departments] else []) ++
    (if !f.tags.isEmpty then [FilterClause.termsTags f.tags] else []) ++
    (match f.dateRange with
      | some r => [FilterClause.rangeCreatedAt r.1 r.2]
      | none => [])

/-- Conversion of index hits to the client source shape. -/
def convertToDocumentSources (results : List Doc) : List DocumentSource :=
  results.map (fun doc =>
    { id := doc.id, title := doc.title, type := doc.type, relevanceScore := doc.score,
      excerpt := String.mk (doc.content.data.take 200) ++
        (if 200 < doc.content.data.length then "..." else ""),
      metadata := doc.metadata })

/-- Decimal-or-fraction rendering of a rational for the prompt block. -/
def ratToStr (q : ℚ) : String :=
  if q.den = 1 then toString q.num else toString q.num ++ "/" ++ toString q.den

/-- JSON rendering of the compact revenue record. -/
def renderFinancials (m : List (String × ℚ)) : String :=
  "\x7b" ++ String.intercalate ","
    (m.map (fun p => "\"" ++ p.1 ++ "\":" ++ ratToStr p.2)) ++ "\x7d"

/-- The knowledge-base block of the prompt: the top five hits rendered with
ordinal, title, type, category, department and truncated content. -/
def searchContextFor (searchResults : List Doc) : String :=
  if searchResults.length > 0 then
    "\nCompany Knowledge Base (" ++ toString searchResults.length ++
    " relevant documents found):\n\n" ++
    String.intercalate "\n" ((searchResults.take 5).enum.map (fun p =>
      "\n" ++ toString (p.1 + 1) ++ ". **" ++ p.2.title ++ "** (" ++ upperStr p.2.type ++
      ")\n   Category: " ++ (if p.2.metadata.category != "" then p.2.metadata.category else "N/A") ++
      "\n   Department: " ++
      (if p.2.metadata.department != "" then p.2.metadata.department else "N/A") ++
      "\n   Content: " ++ String.mk (p.2.content.data.take 300) ++
      (if 300 < p.2.content.data.length then "..." else "") ++ "\n")) ++ "\n"
  else ""

/-- The trimmed conversation history block of the prompt: last six turns,
each truncated to 200 characters and role labelled. -/
def conversationContextFor (chatHistory : List ChatMessage) : String :=
  if chatHistory.length > 0 then
    "\nRecent Conversation History:\n" ++
    String.intercalate "\n" ((chatHistory.drop (chatHistory.length - 6)).map (fun msg =>
      (if msg.isUser then "User" else "Assistant") ++ ": " ++
      String.mk (msg.content.data.take 200) ++
      (if 200 < msg.content.data.length then "..." else ""))) ++ "\n"
  else ""

/-- The fixed instruction template of the prompt around its context blocks. -/
def promptFor (sanitizedQuery : String) (searchResults : List Doc)
    (chatHistory : List ChatMessage) : String :=
  "You are CompanyBrain AI, an intelligent assistant that helps users find information from their company\x27s knowledge base.\n\n" ++
  searchContextFor searchResults ++ "\n\n" ++ conversationContextFor chatHistory ++
  "\n\nUser Question: " ++ sanitizedQuery ++
  "\n\nInstructions:\n1. Base your answer ONLY on the provided company documents; do not fabricate.\n2. If documents contain relevant information, use it to answer concisely with brief citations (e.g., Doc 1, Doc 2).\n3. If no relevant documents are found, say so briefly and suggest next steps.\n4. Do NOT use tools, calculators, or external resources.\n5. Perform any calculations mentally and show ONLY final results (no steps).\n6. Do NOT reveal chain-of-thought or reasoning; provide the answer and concise citations only.\n7. Be helpful, professional, and conversational.\n8. Use conversation history only for context, not as a source of facts.\n\nFormat your response as a short answer followed by optional citations like (Doc 1, Doc 3)."

/-- Model of callGeminiAPI over an abstract fetch collaborator: a thrown
fetch or a non-ok status propagates as an error; an ok response without a
text candidate falls back to a fixed apology; otherwise the candidate text
is returned. -/
def callGeminiAPI (fetchGemini : String → Except Unit (Option String))
    (prompt : String) : Except Unit String :=
  match fetchGemini prompt with
  | .error e => .error e
  | .ok none => .ok "I apologize, but I was unable to generate a response at this time."
  | .ok (some text) => .ok text

/-- Steps 5 and 6 of the pipeline: assemble the grounding context (hits,
compact financial block, trimmed history) into a prompt and call the model
collaborator once; every failure is caught and replaced by a fixed apology,
so the function is total.  Returns the answer text and the model call made. -/
def generateAIResponse (fetchGemini : String → Except Unit (Option String))
    (query : String) (searchResults : List Doc) (chatHistory : List ChatMessage) :
    String × CallTrace :=
  let sanitizedQuery := sanitizeInput query
  let prompt := promptFor sanitizedQuery searchResults chatHistory
  let financials := financialsFor searchResults
  let financialsBlock :=
    if !financials.isEmpty then
      "\nStructured Financial Data (from documents)\nRevenueByYear: " ++
        renderFinancials financials ++ "\n\n"
    else ""
  let finalPrompt := financialsBlock ++ prompt
  match callGeminiAPI fetchGemini finalPrompt with
  | .ok response => (response, ⟨0, 0, 0, 1⟩)
  | .error _ =>
    ("I apologize, but I\x27m having trouble processing your question right now. Please try again later.",
     ⟨0, 0, 0, 1⟩)

/-- The main query handler: sanitize and validate the query, plan, fan out
the searches, generate the answer and shape the response.  The search and
generation steps of the model are total, so the inner catch branch of the
source (which would substitute a searching apology) is unreachable here.
Returns the response together with all collaborator calls made. -/
def handleQuery (env : SearchEnv) (fetchGemini : String → Except Unit (Option String))
    (rng : Nat → List ℚ) (req : QueryRequest) : HandlerResponse × CallTrace :=
  let sanitizedQuery := sanitizeInput req.query
  if sanitizedQuery == "" || jsTrimStr sanitizedQuery == "" then
    (.errorResp "Query is required" 400, {})
  else
    let searchFilters := buildSearchFilters req.filters
    let plan := planInformationNeeds sanitizedQuery
    let queries := sanitizedQuery :: plan.searchQueries
    let searched := multiSearch env rng sanitizedQuery queries
      (if searchFilters.isEmpty then none else some searchFilters)
      req.useVectorSearch req.maxResults
    let generated := generateAIResponse fetchGemini sanitizedQuery searched.1 req.chatHistory
    let sources := convertToDocumentSources searched.1
    (.successResp generated.1 sources searched.1.length, searched.2.add generated.2)

/-! ## Hybrid search request construction -/

/-- The k-nearest-neighbour clause of the hybrid search request. -/
structure KnnClause where
  field : String
  k : Nat
  numCandidates : Nat
deriving DecidableEq

/-- The lexical clause of the hybrid search request: fields with boosts in
source order, best-fields scoring, automatic fuzziness. -/
structure MultiMatchClause where
  fields : List (String × Nat)
  bestFields : Bool
  fuzzinessAuto : Bool
deriving DecidableEq

/-- The hybrid search request body. -/
structure HybridSearchBody where
  size : Nat
  knn : KnnClause
  lexical : MultiMatchClause
  minimumShouldMatch : Nat
  filter : Option (List FilterClause)
deriving DecidableEq

/-- The request body built by hybridSearchDocuments: a disjunction of a
k-nearest-neighbour clause on the embedding field and a fuzzy multi-field
match, at least one of which must hold. -/
def hybridSearchBody (size : Nat) (filters : Option (List FilterClause)) : HybridSearchBody :=
  { size := size,
    knn := { field := "embedding", k := size * 2, numCandidates := 100 },
    lexical := { fields := [("title", 3), ("content", 2), ("text", 1),
                            ("metadata.summary", 2), ("metadata.fileName", 4)],
                 bestFields := true, fuzzinessAuto := true },
    minimumShouldMatch := 1,
    filter := filters }

/-- The boost of a named field in the lexical clause of a request body. -/
def boostOf (b : HybridSearchBody) (f : String) : Nat := (b.lexical.fields.lookup f).getD 0

/-! ## Concrete fixtures for instantiated checks -/

/-- A degenerate random source. -/
def rngZero : Nat → List ℚ := fun _ => []

/-- A model collaborator that always answers with a fixed text. -/
def fetchConst : String → Except Unit (Option String) := fun _ => .ok (some "ok")

/-- A model collaborator whose fetch always throws. -/
def fetchThrows : String → Except Unit (Option String) := fun _ => .error ()

/-- A hit used to witness the lexical fallback. -/
def docX : Doc := { id := "docX", title := "Fallback hit", content := "text", type := "txt" }

/-- An index whose hybrid search always throws while lexical search finds a
hit. -/
def envHybridThrows : SearchEnv :=
  { fetchOk := true,
    hybrid := fun _ _ _ _ => .error (),
    lexical := fun _ _ _ => .ok [docX] }

/-- An index whose hybrid search returns zero hits while lexical search finds
a hit. -/
def envHybridEmpty : SearchEnv :=
  { fetchOk := true,
    hybrid := fun _ _ _ _ => .ok [],
    lexical := fun _ _ _ => .ok [docX] }

/-- An index that finds nothing anywhere. -/
def envNoHits : SearchEnv :=
  { fetchOk := true,
    hybrid := fun _ _ _ _ => .ok [],
    lexical := fun _ _ _ => .ok [] }

/-- A query whose length exceeds the documented bound by one. -/
def qLong : String := String.mk (List.replicate 1001 'a')

/-- Hits for the dedupe fixture: two distinct hits share the identity doc1. -/
def docD1 : Doc := { id := "doc1", title := "First doc1" }

/-- The repeated hit with the identity doc1 arriving from a later query. -/
def docD1x : Doc := { id := "doc1", title := "Second doc1" }

/-- A hit with the identity doc2. -/
def docD2 : Doc := { id := "doc2", title := "Doc two" }

/-- A hit with the identity doc3. -/
def docD3 : Doc := { id := "doc3", title := "Doc three" }

/-- An index for the dedupe fixture: two sub-queries whose result lists each
contain a hit with the identity doc1. -/
def envDup : SearchEnv :=
  { fetchOk := true,
    hybrid := fun _ _ _ _ => .error (),
    lexical := fun q _ _ => if q = "q1" then .ok [docD2, docD1] else .ok [docD1x, docD3] }

/-- A tabular document carrying the revenue rows of the specification
example. -/
def csvDocA : Doc :=
  { id := "a", title := "Revenue A", type := "csv",
    content := "Month,Revenue\nJan-2021,1000\nFeb-2021,2000" }

/-- A second tabular document with more revenue for the same year. -/
def csvDocB : Doc :=
  { id := "b", title := "Revenue B", type := "csv",
    content := "Month,Revenue\nMar-2021,4000" }

/-- A document whose content has both a tabular header and a free-text fact
sentence, separating the two extraction heuristics. -/
def c10Doc : Doc :=
  { id := "c10", title := "Demo", type := "csv",
    content := "Month,Revenue\nJan-2021,5\nRevenue in 2020 was 999" }

/-- An index whose hybrid hits depend on the embedding vector it is given. -/
def envEmbSensitive : SearchEnv :=
  { fetchOk := true,
    hybrid := fun _ emb _ _ => if emb.head? = some (0 : ℚ) then .ok [docD2] else .ok [docD3],
    lexical := fun _ _ _ => .error () }

/-- A random source drawing zero vectors. -/
def rngA : Nat → List ℚ := fun _ => [0]

/-- A random source drawing one vectors. -/
def rngB : Nat → List ℚ := fun _ => [1]

/-- A plain request with all defaults. -/
def reqHello : QueryRequest := { query := "hello" }

example : sanitizeInput "  hello <b>world</b>  " = "hello bworld/b" := by decide
example : sanitizeInput "JavaScript:alert" = "alert" := by decide
example : sanitizeInput "a onclick=bad" = "a bad" := by decide
example : sanitizeInput "" = "" := by decide
example : parseFloatQ (cleanNum "$1,000".data) = some 1000 := by decide
example : parseFloatQ (cleanNum "12.5".data) = some (mkRat 125 10) := by decide
example : parseFloatQ (cleanNum "n/a".data) = none := by decide
example : addQ 1000 2000 = 3000 := by decide
example : firstYearMatch "Jan-2021".data = some "2021" := by decide
example : yearScanB "revenue in 2021 and 2020".data = ["2021", "2020"] := by decide
example : yearScanB "a19999 2021b 1899 1900".data = ["1900"] := by decide
example : dedupeStr ["a", "b", "a", "c"] = ["a", "b", "c"] := by decide
example : splitLines "Month,Revenue\nJan-2021,1000" = ["Month,Revenue", "Jan-2021,1000"] := by
  decide
example : testCI "revenue" "Total Revenue (USD)" = true := by decide
example : (planInformationNeeds "Tell me about our strategy").metrics = ["revenue"] := by decide
example :
    (planInformationNeeds "Compare revenue in 2021 and 2020").years = ["2021", "2020"] := by
  decide
example :
    (planInformationNeeds "Compare revenue in 2021 and 2020").searchQueries =
      ["Compare revenue in 2021 and 2020", "revenue 2021 2020", "revenue 2021",
       "revenue 2020"] := by
  decide
example :
    extractRevenueByYearFromCsvContent "Month,Revenue\nJan-2021,1000\nFeb-2021,2000" =
      [("2021", 3000)] := by
  decide
example :
    freeTextFacts "doc" "Revenue in 2021 was 12345" =
      [{ metric := "revenue", year := "20", value := 12345, source := "doc" }] := by
  decide
example :
    docFacts { title := "T", content := "Month,Revenue\nJan-2021,5" } =
      [{ metric := "revenue", year := "2021", value := 5, source := "T" }] := by
  decide

/-! ## Helper lemmas -/

theorem lookupQ_addEntry_addEntry (k : String) (v₁ v₂ : ℚ) :
    ∀ m : List (String × ℚ),
      ((addEntry (addEntry m k v₁) k v₂).lookup k).getD 0 = (m.lookup k).getD 0 + v₁ + v₂ := by
  intro m
  induction m with
  | nil =>
    simp [addEntry, List.lookup, addQ_eq_add]
  | cons p rest ih =>
    obtain ⟨k', v'⟩ := p
    by_cases h : k' = k
    · subst h
      simp [addEntry, List.lookup, addQ_eq_add]
    · have hb : (k == k') = false := beq_false_of_ne (Ne.symm h)
      simp [addEntry, h, List.lookup, hb, ih]

theorem multiSearch_false_rng (env : SearchEnv) (rng₁ rng₂ : Nat → List ℚ) (uq : String)
    (qs : List String) (f : Option (List FilterClause)) (N : Nat) :
    multiSearch env rng₁ uq qs f false N = multiSearch env rng₂ uq qs f false N := by
  simp only [multiSearch]
  have h : ((qs.take 6).enum).map
        (fun p => runSubQuery env false f (max 3 (N / 2)) (rng₁ p.1) p.2) =
      ((qs.take 6).enum).map
        (fun p => runSubQuery env false f (max 3 (N / 2)) (rng₂ p.1) p.2) :=
    List.map_congr_left (fun p _ => rfl)
  rw [h]

/-! ## Claim theorems -/

/-- C4: for any maxResults bound and all inputs, the merged hit list returned
by the multi-search step has length at most that bound. -/
theorem multiSearch_length_le_maxResults (env : SearchEnv) (rng : Nat → List ℚ)
    (userQuery : String) (searchQueries : List String) (filters : Option (List FilterClause))
    (useVectorSearch : Bool) (maxResults : Nat) :
    (multiSearch env rng userQuery searchQueries filters useVectorSearch maxResults).1.length ≤
      maxResults := by
  simp only [multiSearch]
  simp [List.length_take]

/-- C9 counterexample: the hybrid request built by the source does not rank
title highest and filename lowest; at size ten the boosts are four for
filename, three for title and two each for content and summary, refuting the
claimed strict ordering. -/
theorem hybridBoosts_claimed_order_false :
    ¬ (boostOf (hybridSearchBody 10 none) "title" > boostOf (hybridSearchBody 10 none) "content"
      ∧ boostOf (hybridSearchBody 10 none) "content" >
          boostOf (hybridSearchBody 10 none) "metadata.summary"
      ∧ boostOf (hybridSearchBody 10 none) "metadata.summary" >
          boostOf (hybridSearchBody 10 none) "metadata.fileName") := by
  decide

/-- C9 amended: the hybrid search request combines a k-nearest-neighbour
clause (embedding field, k twice the requested size, one hundred candidates)
with a fuzzy multi-field lexical match under minimum-should-match one, and
the per-field boosts rank filename highest (four), then title (three), then
content and summary equal (two), with the combined text field lowest (one). -/
theorem hybridSearchBody_spec (size : Nat) (filters : Option (List FilterClause)) :
    (hybridSearchBody size filters).minimumShouldMatch = 1
    ∧ (hybridSearchBody size filters).knn =
        { field := "embedding", k := size * 2, numCandidates := 100 }
    ∧ (hybridSearchBody size filters).lexical.fuzzinessAuto = true
    ∧ boostOf (hybridSearchBody size filters) "metadata.fileName" = 4
    ∧ boostOf (hybridSearchBody size filters) "title" = 3
    ∧ boostOf (hybridSearchBody size filters) "content" = 2
    ∧ boostOf (hybridSearchBody size filters) "metadata.summary" = 2
    ∧ boostOf (hybridSearchBody size filters) "text" = 1 :=
  ⟨rfl, rfl, rfl, rfl, rfl, rfl, rfl, rfl⟩

/-- C2 amended: a request whose query sanitizes to the empty string is
rejected with a 400 client error and no collaborator call of any kind is
made. -/
theorem handleQuery_rejects_empty (env : SearchEnv)
    (fetchGemini : String → Except Unit (Option String)) (rng : Nat → List ℚ)
    (req : QueryRequest) (h : sanitizeInput req.query = "") :
    handleQuery env fetchGemini rng req = (.errorResp "Query is required" 400, ⟨0, 0, 0, 0⟩) := by
  simp [handleQuery, h]

/-- C2 amended, witness: the genuinely empty query is rejected with no
downstream calls. -/
theorem handleQuery_rejects_empty_witness :
    handleQuery envNoHits fetchConst rngZero { query := "" } =
      (.errorResp "Query is required" 400, ⟨0, 0, 0, 0⟩) :=
  handleQuery_rejects_empty envNoHits fetchConst rngZero { query := "" } (by decide)

set_option maxRecDepth 100000 in
/-- C2 counterexample: a 1001-character query is not rejected; the handler
performs three embedding, hybrid and lexical calls and one model call and
answers with success, refuting the claimed length validation. -/
theorem handleQuery_oversized_not_rejected :
    1000 < qLong.length ∧
    handleQuery envNoHits fetchConst rngZero { query := qLong } =
      (.successResp "ok" [] 0, ⟨3, 3, 3, 1⟩) := by
  decide

/-- C8 amended: with all collaborators fixed pure functions, two runs differing
only in the random embedding source produce identical outputs whenever
vector search is off (no random vector is drawn); with vector search on the
placeholder embedding generator makes the output depend on the drawn
vectors, see the counterexample. -/
theorem handleQuery_deterministic_lexical (env : SearchEnv)
    (fetchGemini : String → Except Unit (Option String)) (req : QueryRequest)
    (rng₁ rng₂ : Nat → List ℚ) (h : req.useVectorSearch = false) :
    handleQuery env fetchGemini rng₁ req = handleQuery env fetchGemini rng₂ req := by
  simp only [handleQuery, h]
  split
  · rfl
  · rw [multiSearch_false_rng env rng₁ rng₂]

/-- C8 amended, witness: a concrete lexical-only request run under two
different random sources yields the same response. -/
theorem handleQuery_deterministic_lexical_witness :
    handleQuery envDup fetchConst rngA { query := "hello", useVectorSearch := false } =
      handleQuery envDup fetchConst rngB { query := "hello", useVectorSearch := false } :=
  handleQuery_deterministic_lexical envDup fetchConst
    { query := "hello", useVectorSearch := false } rngA rngB rfl

/-- C8 counterexample: with every collaborator a fixed pure function, two runs
on the identical request differ because the placeholder embedding generator
feeds its freshly drawn random vector into hybrid search. -/
theorem handleQuery_not_deterministic_vector :
    (handleQuery envEmbSensitive fetchConst rngA { query := "hello" }).1 ≠
      (handleQuery envEmbSensitive fetchConst rngB { query := "hello" }).1 := by
  decide

/-- C5: the compact revenue extractor sums rows of the same year (the
specification example yields year 2021 bound to 3000), the financial block
accumulates per document and across documents by addition, and repeated
updates of one year add rather than overwrite. -/
theorem revenue_extraction_sums :
    extractRevenueByYearFromCsvContent "Month,Revenue\nJan-2021,1000\nFeb-2021,2000" =
      [("2021", 3000)]
    ∧ financialsFor [csvDocA] = [("2021", 3000)]
    ∧ financialsFor [csvDocA, csvDocB] = [("2021", 7000)]
    ∧ ∀ (m : List (String × ℚ)) (k : String) (v₁ v₂ : ℚ),
        ((addEntry (addEntry m k v₁) k v₂).lookup k).getD 0 = (m.lookup k).getD 0 + v₁ + v₂ := by
  refine ⟨by decide, by decide, by decide, ?_⟩
  intro m k v₁ v₂
  exact lookupQ_addEntry_addEntry k v₁ v₂ m

/-- C10: a document some line of whose content is a comma-containing metric
header is mined by the tabular heuristic alone, and the free-text heuristic
runs exactly on the documents without such a line; on the fixture whose
content carries both a header and a free-text fact sentence, the extractor
returns only the tabular fact even though the free-text heuristic alone
would have found facts. -/
theorem extract_facts_heuristic_choice (doc : Doc) (headerIdx : Nat) :
    ((splitLines doc.content).findIdx? isMetricHeaderLine = some headerIdx →
      extractMetricYearFacts [doc] = csvFacts (sourceName doc) (splitLines doc.content) headerIdx)
    ∧ ((splitLines doc.content).findIdx? isMetricHeaderLine = none →
      extractMetricYearFacts [doc] = freeTextFacts (sourceName doc) doc.content)
    ∧ extractMetricYearFacts [c10Doc] =
        [{ metric := "revenue", year := "2021", value := 5, source := "Demo" }]
    ∧ freeTextFacts (sourceName c10Doc) c10Doc.content =
        [{ metric := "revenue", year := "20", value := 5, source := "Demo" },
         { metric := "revenue", year := "20", value := 999, source := "Demo" }] := by
  refine ⟨?_, ?_, by decide, by decide⟩
  · intro h
    simp [extractMetricYearFacts, docFacts, h]
  · intro h
    simp [extractMetricYearFacts, docFacts, h]

/-- C10 witness: the fixture document is mined by the tabular heuristic. -/
theorem extract_facts_heuristic_choice_witness :
    extractMetricYearFacts [c10Doc] =
      csvFacts (sourceName c10Doc) (splitLines c10Doc.content) 0 :=
  (extract_facts_heuristic_choice c10Doc 0).1 (by decide)

/-- C1 amended: in the multi-search loop body, a sub-query whose hybrid call
throws is skipped entirely (no lexical retry, no hits); lexical search is
invoked for a sub-query exactly when hybrid search returns successfully with
zero hits, and the hits of that fallback become the whole contribution of
the sub-query, so for a single-query fan-out they are exactly what is merged
and bounded. -/
theorem hybrid_throw_skips_lexical_fallback_on_empty (env : SearchEnv) (rnd : List ℚ)
    (q : String) (filters : Option (List FilterClause)) (topK : Nat) :
    (env.hybrid q (generateEmbedding env rnd) filters topK = .error () →
      runSubQuery env true filters topK rnd q = ([], ⟨1, 1, 0, 0⟩))
    ∧ (∀ rs, env.hybrid q (generateEmbedding env rnd) filters topK = .ok [] →
        env.lexical q filters topK = .ok rs →
        runSubQuery env true filters topK rnd q = (rs, ⟨1, 1, 1, 0⟩))
    ∧ (∀ rs N, env.hybrid q (generateEmbedding env rnd) filters (max 3 (N / 2)) = .ok [] →
        env.lexical q filters (max 3 (N / 2)) = .ok rs →
        (multiSearch env (fun _ => rnd) q [q] filters true N).1 = (mergeDedupe rs).take N) := by
  refine ⟨?_, ?_, ?_⟩
  · intro h
    simp [runSubQuery, h]
  · intro rs h1 h2
    simp [runSubQuery, h1, h2]
  · intro rs N h1 h2
    simp only [multiSearch, List.take, List.enum, List.enumFrom, List.map, List.map_cons,
      List.map_nil, List.flatten]
    simp [runSubQuery, h1, h2]

/-- C1 amended, witness: with an index whose hybrid search returns zero hits,
the lexical fallback for the same sub-query is invoked and its hit is
merged. -/
theorem hybrid_fallback_witness :
    runSubQuery envHybridEmpty true none 5 [] "q" = ([docX], ⟨1, 1, 1, 0⟩) ∧
    (multiSearch envHybridEmpty (fun _ => []) "q" ["q"] none true 10).1 =
      (mergeDedupe [docX]).take 10 :=
  ⟨(hybrid_throw_skips_lexical_fallback_on_empty envHybridEmpty [] "q" none 5).2.1
      [docX] rfl rfl,
   (hybrid_throw_skips_lexical_fallback_on_empty envHybridEmpty [] "q" none 5).2.2
      [docX] 10 rfl rfl⟩

/-- C1 counterexample: with an index whose hybrid search throws and whose
lexical search would find a hit, the multi-search step never invokes lexical
search for the sub-query and the hit is absent from the merge, refuting the
claimed retry on exception. -/
theorem hybrid_throw_no_lexical_retry :
    envHybridThrows.lexical "q" none 5 = .ok [docX]
    ∧ envHybridThrows.hybrid "q" (generateEmbedding envHybridThrows (rngZero 0)) none 5 =
        .error ()
    ∧ (multiSearch envHybridThrows rngZero "q" ["q"] none true 10).2.lexicalCalls = 0
    ∧ docX ∉ (multiSearch envHybridThrows rngZero "q" ["q"] none true 10).1 :=
  ⟨rfl, rfl, by decide, by decide⟩

theorem dedupeDocsAux_sublist (l : List Doc) : ∀ seen, (dedupeDocsAux seen l).Sublist l := by
  induction l with
  | nil => intro seen; simp [dedupeDocsAux]
  | cons d ds ih =>
    intro seen
    simp only [dedupeDocsAux]
    split
    · exact (ih seen).cons d
    · exact (ih (dedupeKey d :: seen)).cons₂ d

theorem dedupeDocsAux_not_seen (l : List Doc) :
    ∀ (seen : List String) (e : Doc), e ∈ dedupeDocsAux seen l →
      seen.contains (dedupeKey e) = false := by
  induction l with
  | nil => intro seen e h; simp [dedupeDocsAux] at h
  | cons d ds ih =>
    intro seen e h
    simp only [dedupeDocsAux] at h
    split at h
    · exact ih seen e h
    · rename_i hc
      rcases List.mem_cons.mp h with rfl | hmem
      · simpa using hc
      · have h2 := ih (dedupeKey d :: seen) e hmem
        simp only [List.contains_cons, Bool.or_eq_false_iff] at h2
        exact h2.2

theorem dedupeDocsAux_nodup (l : List Doc) :
    ∀ seen, ((dedupeDocsAux seen l).map dedupeKey).Nodup := by
  induction l with
  | nil => intro seen; simp [dedupeDocsAux]
  | cons d ds ih =>
    intro seen
    simp only [dedupeDocsAux]
    split
    · exact ih seen
    · simp only [List.map_cons, List.nodup_cons]
      refine ⟨?_, ih _⟩
      intro hmem
      obtain ⟨e, he, hke⟩ := List.mem_map.mp hmem
      have h2 := dedupeDocsAux_not_seen ds (dedupeKey d :: seen) e he
      rw [hke] at h2
      simp [List.contains_cons] at h2

theorem dedupeDocsAux_complete (l : List Doc) :
    ∀ (seen : List String) (d : Doc), d ∈ l →
      seen.contains (dedupeKey d) = true ∨
        dedupeKey d ∈ (dedupeDocsAux seen l).map dedupeKey := by
  induction l with
  | nil => intro seen d h; simp at h
  | cons a as ih =>
    intro seen d h
    simp only [dedupeDocsAux]
    rcases List.mem_cons.mp h with rfl | hmem
    · split
      · rename_i hc; exact Or.inl hc
      · right; simp
    · split
      · exact ih seen d hmem
      · rcases ih (dedupeKey a :: seen) d hmem with h1 | h1
        · simp only [List.contains_cons, Bool.or_eq_true, beq_iff_eq] at h1
          rcases h1 with h1 | h1
          · right
            simp [h1]
          · exact Or.inl h1
        · right
          simp only [List.map_cons, List.mem_cons]
          exact Or.inr h1

theorem dedupeDocsAux_firstocc (l : List Doc) :
    ∀ (seen : List String) (e : Doc), e ∈ dedupeDocsAux seen l →
      l.find? (fun d => dedupeKey d == dedupeKey e) = some e := by
  induction l with
  | nil => intro seen e h; simp [dedupeDocsAux] at h
  | cons a as ih =>
    intro seen e h
    simp only [dedupeDocsAux] at h
    split at h
    · rename_i hc
      have hns := dedupeDocsAux_not_seen as seen e h
      have hne : (dedupeKey a == dedupeKey e) = false := by
        by_contra hcon
        rw [Bool.not_eq_false, beq_iff_eq] at hcon
        rw [← hcon, hc] at hns
        cases hns
      rw [List.find?_cons_of_neg _ (by simp [hne]), ih seen e h]
    · rcases List.mem_cons.mp h with rfl | hmem
      · rw [List.find?_cons_of_pos _ (by simp)]
      · have hns := dedupeDocsAux_not_seen as (dedupeKey a :: seen) e hmem
        simp only [List.contains_cons, Bool.or_eq_false_iff] at hns
        have hne : (dedupeKey a == dedupeKey e) = false := by
          have h1 := hns.1
          rw [beq_eq_false_iff_ne] at h1 ⊢
          exact fun hh => h1 hh.symm
        rw [List.find?_cons_of_neg _ (by simp [hne]), ih _ e hmem]

/-- C3: in the merge of the flat fan-out hit list, every dedupe identity of
the input appears exactly once (the merged identities are distinct and every
input identity is represented), the merge is a sublist of the input (so
relative order is the order of first occurrences), and each merged hit is
exactly the first input hit bearing its identity; in particular, when the
two sub-query result lists of the fixture each contain a hit with the
identity doc1, the multi-search output contains that identity exactly once,
at the position of its first occurrence, represented by the first-arriving
hit. -/
theorem merge_dedupes_first_occurrences (flat : List Doc) :
    ((mergeDedupe flat).map dedupeKey).Nodup
    ∧ (∀ d ∈ flat, dedupeKey d ∈ (mergeDedupe flat).map dedupeKey)
    ∧ (mergeDedupe flat).Sublist flat
    ∧ (∀ e ∈ mergeDedupe flat, flat.find? (fun d => dedupeKey d == dedupeKey e) = some e)
    ∧ (multiSearch envDup rngZero "q" ["q1", "q2"] none false 10).1 = [docD2, docD1, docD3] := by
  refine ⟨dedupeDocsAux_nodup flat [], ?_, dedupeDocsAux_sublist flat [], ?_, by decide⟩
  · intro d hd
    rcases dedupeDocsAux_complete flat [] d hd with h | h
    · simp [List.contains_nil] at h
    · exact h
  · intro e he
    exact dedupeDocsAux_firstocc flat [] e he

theorem callGeminiAPI_fail (fetchGemini : String → Except Unit (Option String))
    (hfail : ∀ p, fetchGemini p = .error () ∨ fetchGemini p = .ok none) (p : String) :
    callGeminiAPI fetchGemini p = .error () ∨
      callGeminiAPI fetchGemini p =
        .ok "I apologize, but I was unable to generate a response at this time." := by
  unfold callGeminiAPI
  rcases hfail p with h | h <;> rw [h]
  · exact Or.inl rfl
  · exact Or.inr rfl

theorem generateAIResponse_fail (fetchGemini : String → Except Unit (Option String))
    (hfail : ∀ p, fetchGemini p = .error () ∨ fetchGemini p = .ok none)
    (query : String) (searchResults : List Doc) (chatHistory : List ChatMessage) :
    (generateAIResponse fetchGemini query searchResults chatHistory).1 =
        "I apologize, but I was unable to generate a response at this time." ∨
      (generateAIResponse fetchGemini query searchResults chatHistory).1 =
        "I apologize, but I\x27m having trouble processing your question right now. Please try again later." := by
  simp only [generateAIResponse]
  rcases callGeminiAPI_fail fetchGemini hfail
      ((if !(financialsFor searchResults).isEmpty then
          "\nStructured Financial Data (from documents)\nRevenueByYear: " ++
            renderFinancials (financialsFor searchResults) ++ "\n\n"
        else "") ++ promptFor (sanitizeInput query) searchResults chatHistory) with h | h <;>
    rw [h]
  · exact Or.inr rfl
  · exact Or.inl rfl

/-- C6: when every model call fails (thrown fetch, non-ok status, or a
response without text), the answer-synthesis step yields one of the two
fixed apology strings without raising, and a request that passed validation
is still answered with success carrying the sources and hit count of the
search phase. -/
theorem model_failure_still_success (env : SearchEnv)
    (fetchGemini : String → Except Unit (Option String)) (rng : Nat → List ℚ)
    (req : QueryRequest)
    (hq : (sanitizeInput req.query == "" || jsTrimStr (sanitizeInput req.query) == "") = false)
    (hfail : ∀ p, fetchGemini p = .error () ∨ fetchGemini p = .ok none) :
    ∃ hits : List Doc,
      hits = (multiSearch env rng (sanitizeInput req.query)
          (sanitizeInput req.query ::
            (planInformationNeeds (sanitizeInput req.query)).searchQueries)
          (if (buildSearchFilters req.filters).isEmpty then none
            else some (buildSearchFilters req.filters))
          req.useVectorSearch req.maxResults).1 ∧
      ((handleQuery env fetchGemini rng req).1 =
          .successResp "I apologize, but I was unable to generate a response at this time."
            (convertToDocumentSources hits) hits.length ∨
        (handleQuery env fetchGemini rng req).1 =
          .successResp
            "I apologize, but I\x27m having trouble processing your question right now. Please try again later."
            (convertToDocumentSources hits) hits.length) := by
  refine ⟨_, rfl, ?_⟩
  simp only [handleQuery, hq, Bool.false_eq_true, if_false]
  rcases generateAIResponse_fail fetchGemini hfail (sanitizeInput req.query)
      (multiSearch env rng (sanitizeInput req.query)
        (sanitizeInput req.query ::
          (planInformationNeeds (sanitizeInput req.query)).searchQueries)
        (if (buildSearchFilters req.filters).isEmpty then none
          else some (buildSearchFilters req.filters))
        req.useVectorSearch req.maxResults).1 req.chatHistory with h | h <;> rw [h]
  · exact Or.inl rfl
  · exact Or.inr rfl

/-- C6 witness: a concrete request against an index that finds nothing and a
model whose fetch always throws is answered with success and an apology. -/
theorem model_failure_still_success_witness :
    ∃ hits : List Doc,
      hits = (multiSearch envNoHits rngZero (sanitizeInput "hello")
          (sanitizeInput "hello" ::
            (planInformationNeeds (sanitizeInput "hello")).searchQueries)
          (if (buildSearchFilters reqHello.filters).isEmpty then none
            else some (buildSearchFilters reqHello.filters))
          reqHello.useVectorSearch reqHello.maxResults).1 ∧
      ((handleQuery envNoHits fetchThrows rngZero reqHello).1 =
          .successResp "I apologize, but I was unable to generate a response at this time."
            (convertToDocumentSources hits) hits.length ∨
        (handleQuery envNoHits fetchThrows rngZero reqHello).1 =
          .successResp
            "I apologize, but I\x27m having trouble processing your question right now. Please try again later."
            (convertToDocumentSources hits) hits.length) :=
  model_failure_still_success envNoHits fetchThrows rngZero reqHello
    (by decide) (fun _ => Or.inl rfl)

theorem char_toNat_ofNat {n : Nat} (h : n < 55296) : (Char.ofNat n).toNat = n := by
  unfold Char.ofNat
  split
  · rfl
  · rename_i hv
    exact absurd (Or.inl h) hv

theorem lowerChar_digit {c : Char} (h : isDigitCh (lowerChar c) = true) : lowerChar c = c := by
  unfold lowerChar at h ⊢
  split_ifs at h ⊢ with hc
  · exfalso
    simp only [isDigitCh, Bool.and_eq_true, decide_eq_true_eq] at h
    rw [char_toNat_ofNat (by omega)] at h
    omega
  · rfl

theorem map_lowerChar_eq_self {l : List Char}
    (h : ∀ c ∈ l.map lowerChar, isDigitCh c = true) : l.map lowerChar = l := by
  induction l with
  | nil => rfl
  | cons c cs ih =>
    have h1 : isDigitCh (lowerChar c) = true := h _ (by simp)
    have h2 : ∀ x ∈ cs.map lowerChar, isDigitCh x = true := fun x hx => h x (by simp [hx])
    simp only [List.map_cons]
    rw [lowerChar_digit h1, ih h2]

theorem isInfix_of_map_lower {y s : List Char} (hd : ∀ c ∈ y, isDigitCh c = true)
    (h : y <:+: List.map lowerChar s) : y <:+: s := by
  obtain ⟨t, u, htu⟩ := h
  have hm : List.map lowerChar s = t ++ (y ++ u) := by rw [← List.append_assoc, htu]
  obtain ⟨s₁, s₂, hs, _, hm2⟩ := List.map_eq_append_iff.mp hm
  obtain ⟨s₃, s₄, hs2, hm3, _⟩ := List.map_eq_append_iff.mp hm2
  have h3 : s₃ = y := by
    have hall : ∀ c ∈ s₃.map lowerChar, isDigitCh c = true := by rw [hm3]; exact hd
    rw [← hm3]
    exact (map_lowerChar_eq_self hall).symm
  exact ⟨s₁, s₄, by rw [hs, hs2, h3]; simp⟩

theorem yearScanAux_mem :
    ∀ (fuel : Nat) (prev : Option Char) (l : List Char) (y : String),
      y ∈ yearScanAux fuel prev l →
      ∃ c1 c2 c3 c4, y = String.mk [c1, c2, c3, c4] ∧ yearStartPair c1 c2 = true ∧
        isDigitCh c3 = true ∧ isDigitCh c4 = true ∧ [c1, c2, c3, c4] <:+: l := by
  intro fuel
  induction fuel with
  | zero =>
    intro prev l y h
    cases l <;> simp [yearScanAux] at h
  | succ fuel ih =>
    intro prev l y h
    rcases l with _ | ⟨c1, _ | ⟨c2, _ | ⟨c3, _ | ⟨c4, rest2⟩⟩⟩⟩
    · simp [yearScanAux] at h
    · simp [yearScanAux] at h
    · simp [yearScanAux] at h
    · simp [yearScanAux] at h
    · simp only [yearScanAux] at h
      split at h
      · rename_i hcond
        simp only [Bool.and_eq_true] at hcond
        rcases List.mem_cons.mp h with rfl | hmem
        · exact ⟨c1, c2, c3, c4, rfl, hcond.1.1.1.2, hcond.1.1.2, hcond.1.2,
            ⟨[], rest2, by simp⟩⟩
        · obtain ⟨d1, d2, d3, d4, hy, h12, h3, h4, hinf⟩ := ih (some c4) rest2 y hmem
          exact ⟨d1, d2, d3, d4, hy, h12, h3, h4,
            hinf.trans ⟨[c1, c2, c3, c4], [], by simp⟩⟩
      · obtain ⟨d1, d2, d3, d4, hy, h12, h3, h4, hinf⟩ :=
          ih (some c1) (c2 :: c3 :: c4 :: rest2) y h
        exact ⟨d1, d2, d3, d4, hy, h12, h3, h4, hinf.trans ⟨[c1], [], by simp⟩⟩

theorem year_chars_value {c1 c2 c3 c4 : Char} (h12 : yearStartPair c1 c2 = true)
    (h3 : isDigitCh c3 = true) (h4 : isDigitCh c4 = true) :
    1900 ≤ digitsToNat [c1, c2, c3, c4] ∧ digitsToNat [c1, c2, c3, c4] ≤ 2099 ∧
      ∀ c ∈ [c1, c2, c3, c4], isDigitCh c = true := by
  simp only [yearStartPair, Bool.or_eq_true, Bool.and_eq_true, beq_iff_eq] at h12
  have hb3 : 48 ≤ c3.toNat ∧ c3.toNat ≤ 57 := by
    simpa [isDigitCh, Bool.and_eq_true] using h3
  have hb4 : 48 ≤ c4.toNat ∧ c4.toNat ≤ 57 := by
    simpa [isDigitCh, Bool.and_eq_true] using h4
  have e1 : ('1' : Char).toNat = 49 := by decide
  have e9 : ('9' : Char).toNat = 57 := by decide
  have e2 : ('2' : Char).toNat = 50 := by decide
  have e0 : ('0' : Char).toNat = 48 := by decide
  have hmem : ∀ c ∈ [c1, c2, c3, c4], isDigitCh c = true := by
    intro c hc
    simp only [List.mem_cons, List.not_mem_nil, or_false] at hc
    rcases h12 with ⟨h1, h2⟩ | ⟨h1, h2⟩ <;>
      rcases hc with rfl | rfl | rfl | rfl <;>
        first | (rw [h1]; decide) | (rw [h2]; decide) | exact h3 | exact h4
  refine ⟨?_, ?_, hmem⟩ <;>
    rcases h12 with ⟨h1, h2⟩ | ⟨h1, h2⟩ <;>
      subst h1 <;> subst h2 <;>
        simp only [digitsToNat, List.foldl, e1, e9, e2, e0] <;> omega

theorem dedupeStrAux_mem (l : List String) :
    ∀ (seen : List String) (y : String), y ∈ dedupeStrAux seen l → y ∈ l := by
  induction l with
  | nil => intro seen y h; simp [dedupeStrAux] at h
  | cons a as ih =>
    intro seen y h
    simp only [dedupeStrAux] at h
    split at h
    · exact List.mem_cons_of_mem a (ih seen y h)
    · rcases List.mem_cons.mp h with rfl | hmem
      · exact List.mem_cons_self _ _
      · exact List.mem_cons_of_mem a (ih _ y hmem)

theorem dedupeStr_head (a : String) (l : List String) :
    (dedupeStr (a :: l)).head? = some a := by
  simp [dedupeStr, dedupeStrAux]

theorem dedupeStr_cons_ne_nil (a : String) (l : List String) : dedupeStr (a :: l) ≠ [] := by
  intro h
  have hh := dedupeStr_head a l
  rw [h] at hh
  cases hh

/-- C7: for every trimmed input question, the planner output has non-empty
metrics (exactly the revenue default when no metric keyword test fires),
every year is a four-digit all-digit token of the input in the range 1900 to
2099, and the search query list is non-empty with the verbatim input as its
first element. -/
theorem queryPlan_invariant (userQuery : String) (h : jsTrimStr userQuery = userQuery) :
    (planInformationNeeds userQuery).metrics ≠ []
    ∧ (planMetricHits userQuery = [] → (planInformationNeeds userQuery).metrics = ["revenue"])
    ∧ (∀ y ∈ (planInformationNeeds userQuery).years,
        y.data.length = 4 ∧ (∀ c ∈ y.data, isDigitCh c = true) ∧
        1900 ≤ digitsToNat y.data ∧ digitsToNat y.data ≤ 2099 ∧ y.data <:+: userQuery.data)
    ∧ (planInformationNeeds userQuery).searchQueries ≠ []
    ∧ (planInformationNeeds userQuery).searchQueries.head? = some userQuery := by
  refine ⟨?_, ?_, ?_, ?_, ?_⟩
  · simp only [planInformationNeeds]
    cases hm : planMetricHits userQuery with
    | nil => simp [dedupeStr, dedupeStrAux]
    | cons a as =>
      simp only [List.isEmpty_cons, Bool.false_eq_true, if_false]
      exact dedupeStr_cons_ne_nil a as
  · intro hm
    simp [planInformationNeeds, hm, dedupeStr, dedupeStrAux]
  · intro y hy
    simp only [planInformationNeeds] at hy
    have hy2 := dedupeStrAux_mem _ _ _ hy
    obtain ⟨c1, c2, c3, c4, hyk, h12, h3, h4, hinf⟩ :=
      yearScanAux_mem (lowerStr userQuery).data.length none (lowerStr userQuery).data y hy2
    obtain ⟨hlo, hhi, hall⟩ := year_chars_value h12 h3 h4
    have hdata : y.data = [c1, c2, c3, c4] := by rw [hyk]
    have hinf2 : y.data <:+: userQuery.data := by
      rw [hdata]
      refine isInfix_of_map_lower (fun c hc => hall c hc) ?_
      have : (lowerStr userQuery).data = userQuery.data.map lowerChar := rfl
      rw [← this]
      exact hinf
    refine ⟨by rw [hdata]; rfl, ?_, by rw [hdata]; exact hlo, by rw [hdata]; exact hhi, hinf2⟩
    intro c hc
    rw [hdata] at hc
    exact hall c hc
  · simp only [planInformationNeeds]
    exact dedupeStr_cons_ne_nil _ _
  · simp only [planInformationNeeds]
    rw [dedupeStr_head, h]

/-- C7 witness: the planner invariant at a concrete question mentioning a
metric and two years. -/
theorem queryPlan_invariant_witness :
    (planInformationNeeds "Compare revenue in 2021 and 2020").metrics ≠ []
    ∧ (planMetricHits "Compare revenue in 2021 and 2020" = [] →
        (planInformationNeeds "Compare revenue in 2021 and 2020").metrics = ["revenue"])
    ∧ (∀ y ∈ (planInformationNeeds "Compare revenue in 2021 and 2020").years,
        y.data.length = 4 ∧ (∀ c ∈ y.data, isDigitCh c = true) ∧
        1900 ≤ digitsToNat y.data ∧ digitsToNat y.data ≤ 2099 ∧
        y.data <:+: ("Compare revenue in 2021 and 2020" : String).data)
    ∧ (planInformationNeeds "Compare revenue in 2021 and 2020").searchQueries ≠ []
    ∧ (planInformationNeeds "Compare revenue in 2021 and 2020").searchQueries.head? =
        some "Compare revenue in 2021 and 2020" :=
  queryPlan_invariant "Compare revenue in 2021 and 2020" (by decide)
